import Mathlib

/-!
Shallow embedding of the bounded connection pool of
`src/streamlit/utils/databricks_client.py` (class `ConnectionPool` and the
`execute_query` wrapper of class `DatabricksClient`), for a sequential caller.

Modelling decisions, each matching the Python source:

* A session is identified by a natural number; `next_id` supplies the fresh
  identifier the driver-level `connect(...)` call would return.
* `active_connections` is a Python `int`, so it is modelled as `Int`
  (over-release can drive it below zero in the source).
* The idle collection `self.pool = Queue(maxsize=max_connections)` is a FIFO
  queue: `get` takes the head, `put` appends at the back and raises `Full`
  exactly when the queue already holds `max_connections` items.
* The environment (network, remote endpoint) is passed in as explicit oracle
  arguments: `connect_ok` tells whether the driver `connect` call succeeds,
  `probe_ok` whether the `SELECT 1` liveness probe in `release_connection`
  succeeds, `close_ok s` whether `connection.close()` succeeds for session `s`.
* The caller is sequential, as in the claims: nobody refills the queue while
  `get_connection` blocks, so the blocking `self.pool.get(block=True,
  timeout=...)` on an empty queue always ends in `Empty`, which the source
  turns into `TimeoutException`.
-/

namespace DatabricksClientPool

/-- State of a `ConnectionPool` instance: the idle FIFO queue `self.pool`,
the counter `self.active_connections`, the configured `max_connections`
and `connection_timeout`, plus the model-level counter `next_id` supplying
fresh session identifiers. -/
structure PoolState where
  pool : List Nat
  active_connections : Int
  max_connections : Nat
  connection_timeout : Nat
  next_id : Nat
  deriving Repr, DecidableEq

/-- `ConnectionPool.__init__`: empty idle queue, zero active connections. -/
def init_pool (max_connections : Nat) (connection_timeout : Nat) : PoolState :=
  { pool := []
    active_connections := 0
    max_connections := max_connections
    connection_timeout := connection_timeout
    next_id := 0 }

/-- Outcome of `ConnectionPool.get_connection`: a reused idle session, a
freshly created session, the propagated driver error from a failed
`connect(...)`, or the `TimeoutException` of the exhausted-pool branch. -/
inductive GetResult where
  | reused (s : Nat)
  | created (s : Nat)
  | connect_failed
  | pool_timeout
  deriving Repr, DecidableEq

/-- `ConnectionPool.get_connection`, sequential semantics.

1. `self.pool.get(block=False)`: if the idle queue is nonempty, return its
   head at once, with no liveness validation (the `connect_ok` oracle is not
   consulted on this path).
2. On `Empty`, under the lock: if `active_connections < max_connections`,
   increment the counter, then attempt `connect(...)`; on failure decrement
   the counter again and re-raise.
3. Otherwise block on `self.pool.get(block=True, timeout=...)`; for a
   sequential caller the queue stays empty, so this ends in `Empty` and the
   source raises `TimeoutException`, leaving the state untouched. -/
def get_connection (connect_ok : Bool) (st : PoolState) : GetResult × PoolState :=
  match st.pool with
  | s :: rest => (GetResult.reused s, { st with pool := rest })
  | [] =>
    if st.active_connections < (st.max_connections : Int) then
      let st1 : PoolState := { st with active_connections := st.active_connections + 1 }
      if connect_ok then
        (GetResult.created st1.next_id, { st1 with next_id := st1.next_id + 1 })
      else
        (GetResult.connect_failed, { st1 with active_connections := st1.active_connections - 1 })
    else
      (GetResult.pool_timeout, st)

/-- `ConnectionPool.release_connection`. The probe (`SELECT 1`) and the
`self.pool.put(connection, block=False)` sit in one `try`: if the probe
succeeds and the queue has room, the session is enqueued at the back;
if the probe raises, or `put` raises `Full`, the `except` branch closes the
session (ignoring close errors) and decrements `active_connections`.
The function is total: no exception ever reaches the caller. -/
def release_connection (s : Nat) (probe_ok : Bool) (st : PoolState) : PoolState :=
  if probe_ok then
    if st.pool.length < st.max_connections then
      { st with pool := st.pool ++ [s] }
    else
      { st with active_connections := st.active_connections - 1 }
  else
    { st with active_connections := st.active_connections - 1 }

/-- The drain loop of `ConnectionPool.close_all`: while the idle queue is
nonempty, take the head session, call `connection.close()` on it, and
decrement `active_connections` only when the close succeeded (a raising
`close` is caught, logged, and the decrement is skipped). Returns the list
of sessions on which `close` was called together with the final counter. -/
def drain_idle (close_ok : Nat → Bool) : List Nat → Int → List Nat × Int
  | [], active => ([], active)
  | s :: rest, active =>
    let r := drain_idle close_ok rest (if close_ok s then active - 1 else active)
    (s :: r.1, r.2)

/-- `ConnectionPool.close_all`: drain the idle queue, closing every idle
session and decrementing `active_connections` once per successful close. -/
def close_all (close_ok : Nat → Bool) (st : PoolState) : PoolState :=
  { st with pool := []
            active_connections := (drain_idle close_ok st.pool st.active_connections).2 }

/-- Abbreviation for building a concrete pool state. -/
def mk_state (pool : List Nat) (active : Int) (maxc tmo nid : Nat) : PoolState :=
  { pool := pool
    active_connections := active
    max_connections := maxc
    connection_timeout := tmo
    next_id := nid }

/-- A sequential pool operation: one `get_connection` call (with its connect
oracle) or one `release_connection` call (with its probe oracle). -/
inductive Op where
  | get (connect_ok : Bool)
  | release (s : Nat) (probe_ok : Bool)
  deriving Repr, DecidableEq

/-- The state transition of one operation (result value discarded). -/
def step (op : Op) (st : PoolState) : PoolState :=
  match op with
  | Op.get connect_ok => (get_connection connect_ok st).2
  | Op.release s probe_ok => release_connection s probe_ok st

/-- Run a sequence of operations. -/
def run (ops : List Op) (st : PoolState) : PoolState :=
  match ops with
  | [] => st
  | op :: rest => run rest (step op st)

/-- Every state visited while running a sequence of operations, the initial
and final states included. -/
def run_states (ops : List Op) (st : PoolState) : List PoolState :=
  match ops with
  | [] => [st]
  | op :: rest => st :: run_states rest (step op st)

/-- Outcome of a `cursor.execute(query)` call inside
`DatabricksClient.execute_query`: either the tabular result (column names
from `cursor.description`, plus the fetched rows, cell values modelled as
integers), or a raised driver error. -/
inductive QueryOutcome where
  | ok (columns : List String) (rows : List (List Int))
  | fail
  deriving Repr, DecidableEq

/-- One row dictionary of `execute_query`:
`for i, col_name in enumerate(columns): row_dict[col_name] = row[i]`.
When the row has at least as many cells as there are columns this is the
ordered pairing of column names with cell values; a shorter row makes
`row[i]` raise `IndexError`, modelled as `none`. -/
def row_dict (columns : List String) (row : List Int) : Option (List (String × Int)) :=
  if columns.length ≤ row.length then some (columns.zip row) else none

/-- The `result_dicts` loop of `execute_query`: one dictionary per fetched
row, in row order; `none` if any row raises. -/
def result_dicts (columns : List String) : List (List Int) → Option (List (List (String × Int)))
  | [] => some []
  | row :: rest =>
    match row_dict columns row, result_dicts columns rest with
    | some d, some ds => some (d :: ds)
    | _, _ => none

/-- Outcome of `DatabricksClient.execute_query` as seen by its caller:
the list of row dictionaries, or one of the propagated errors. -/
inductive QueryResult where
  | rows (result : List (List (String × Int)))
  | connect_failed
  | pool_timeout
  | query_error
  deriving Repr, DecidableEq

/-- `DatabricksClient.execute_query`. `connection = None`; then
`get_connection()` inside the `try`. If acquisition raises, the `finally`
sees `connection` still `None` and releases nothing; the error propagates.
If a session was obtained, the query runs and the `finally` always sends the
session through `release_connection` — after a successful query, after a
raising `cursor.execute`, and after an `IndexError` while building the row
dictionaries — and the result or the error reaches the caller afterwards. -/
def execute_query (connect_ok : Bool) (outcome : QueryOutcome) (probe_ok : Bool)
    (st : PoolState) : QueryResult × PoolState :=
  match get_connection connect_ok st with
  | (GetResult.connect_failed, st1) => (QueryResult.connect_failed, st1)
  | (GetResult.pool_timeout, st1) => (QueryResult.pool_timeout, st1)
  | (GetResult.reused s, st1) | (GetResult.created s, st1) =>
    match outcome with
    | QueryOutcome.fail => (QueryResult.query_error, release_connection s probe_ok st1)
    | QueryOutcome.ok columns rows =>
      match result_dicts columns rows with
      | some ds => (QueryResult.rows ds, release_connection s probe_ok st1)
      | none => (QueryResult.query_error, release_connection s probe_ok st1)

/-! ## Helper lemmas -/

/-- One step of the pool keeps `active_connections ≤ max_connections` and
never changes `max_connections`. -/
theorem step_active_le (op : Op) (st : PoolState)
    (h : st.active_connections ≤ (st.max_connections : Int)) :
    (step op st).active_connections ≤ ((step op st).max_connections : Int) ∧
    (step op st).max_connections = st.max_connections := by
  obtain ⟨pool, active, maxc, tmo, nid⟩ := st
  cases op with
  | get c =>
    cases pool with
    | nil =>
      simp only [step, get_connection]
      split_ifs <;> simp_all <;> omega
    | cons s rest =>
      simpa [step, get_connection] using h
  | release s p =>
    simp only [step, release_connection]
    split_ifs <;> simp_all <;> omega

/-- Along any run, every visited state satisfies the counter bound and has
the same `max_connections` as the starting state. -/
theorem active_le_of_mem_run_states (ops : List Op) (st : PoolState)
    (h : st.active_connections ≤ (st.max_connections : Int)) :
    ∀ st2 ∈ run_states ops st,
      st2.active_connections ≤ (st2.max_connections : Int) ∧
      st2.max_connections = st.max_connections := by
  induction ops generalizing st with
  | nil =>
    intro st2 hst2
    simp only [run_states, List.mem_singleton] at hst2
    subst hst2
    exact ⟨h, rfl⟩
  | cons op rest ih =>
    intro st2 hst2
    simp only [run_states, List.mem_cons] at hst2
    rcases hst2 with rfl | hmem
    · exact ⟨h, rfl⟩
    · have hstep := step_active_le op st h
      obtain ⟨h1, h2⟩ := ih (step op st) hstep.1 st2 hmem
      exact ⟨h1, h2.trans hstep.2⟩

/-! ## Claims -/

/-- C1: for every sequential sequence of `get_connection` / `release_connection`
calls on a pool constructed with `max_connections = N`, the counter
`active_connections` never exceeds `N` at any point of the sequence. -/
theorem c1_active_never_exceeds_max (N t : Nat) (ops : List Op) (st : PoolState)
    (hst : st ∈ run_states ops (init_pool N t)) :
    st.active_connections ≤ (N : Int) := by
  have h := active_le_of_mem_run_states ops (init_pool N t) (by simp [init_pool]) st hst
  have hmax : st.max_connections = N := h.2
  calc st.active_connections ≤ (st.max_connections : Int) := h.1
    _ = (N : Int) := by rw [hmax]

/-- Witness for C1 at a concrete run: two acquisitions against a pool of
capacity 1 (the second times out). -/
theorem c1_active_never_exceeds_max_witness :
    (run [Op.get true, Op.get true] (init_pool 1 30)).active_connections ≤ (1 : Int) :=
  c1_active_never_exceeds_max 1 30 [Op.get true, Op.get true] _ (by decide)

/-- C3: when the idle queue is empty and `active_connections` has reached
`max_connections`, `get_connection` (sequentially, so no session is freed
while it blocks) raises `TimeoutException` and leaves the pool state — both
the counter and the idle queue — exactly as before the call. -/
theorem c3_exhausted_timeout_state_unchanged (c : Bool) (st : PoolState)
    (hempty : st.pool = [])
    (hfull : st.active_connections = (st.max_connections : Int)) :
    get_connection c st = (GetResult.pool_timeout, st) := by
  obtain ⟨pool, active, maxc, tmo, nid⟩ := st
  simp only at hempty hfull
  subst hempty
  simp [get_connection, hfull]

/-- Witness for C3: a pool of capacity 1 with its single session checked out. -/
theorem c3_exhausted_timeout_state_unchanged_witness :
    get_connection true (mk_state [] 1 1 30 5) =
      (GetResult.pool_timeout, mk_state [] 1 1 30 5) :=
  c3_exhausted_timeout_state_unchanged true _ rfl rfl

/-- C4: in the session-creation branch (idle queue empty, counter below the
maximum), a failing `connect` propagates the error and rolls
`active_connections` back to its value before the call — the state is
unchanged — and the slot remains reusable: a later acquire with a working
network creates a fresh session. -/
theorem c4_connect_failure_rolls_back (st : PoolState)
    (hempty : st.pool = [])
    (hlt : st.active_connections < (st.max_connections : Int)) :
    get_connection false st = (GetResult.connect_failed, st) ∧
    (get_connection true st).1 = GetResult.created st.next_id := by
  obtain ⟨pool, active, maxc, tmo, nid⟩ := st
  simp only at hempty hlt
  subst hempty
  constructor
  · simp [get_connection, hlt]
  · simp [get_connection, hlt]

/-- Witness for C4: a fresh pool of capacity 1. -/
theorem c4_connect_failure_rolls_back_witness :
    get_connection false (init_pool 1 30) = (GetResult.connect_failed, init_pool 1 30) ∧
    (get_connection true (init_pool 1 30)).1 = GetResult.created (init_pool 1 30).next_id :=
  c4_connect_failure_rolls_back _ rfl (by decide)

/-- C5: when the release-time liveness probe fails, `release_connection`
closes and discards the session — the idle queue is unchanged, so the
session is not enqueued — decrements `active_connections` by exactly one,
and raises nothing (the function is total into `PoolState`). -/
theorem c5_dead_session_discarded (s : Nat) (probe : Bool) (st : PoolState)
    (hprobe : probe = false) :
    release_connection s probe st =
      { st with active_connections := st.active_connections - 1 } := by
  subst hprobe
  simp [release_connection]

/-- Witness for C5: releasing a dead session into a pool with one idle
session. -/
theorem c5_dead_session_discarded_witness :
    release_connection 1 false (mk_state [0] 2 2 30 2) = mk_state [0] 1 2 30 2 :=
  c5_dead_session_discarded 1 false _ rfl

/-- C2 counterexample: `release_connection` has no double-release guard.
Acquire session 0 from a fresh pool of capacity 2 and release it twice with
a passing probe: the second call enqueues the very same session again, so
the idle queue holds `[0, 0]` — double release is neither detected nor a
no-op. -/
theorem c2_counterexample :
    (release_connection 0 true (run [Op.get true, Op.release 0 true] (init_pool 2 30))).pool
        = [0, 0] ∧
    (release_connection 0 true (run [Op.get true, Op.release 0 true] (init_pool 2 30))).active_connections
        = 1 := by
  decide

/-- C2 amended: the code does not detect or reject double release. Releasing
the same session twice with a passing probe, while the idle queue has room
for both copies, enqueues the session twice and leaves `active_connections`
unchanged. -/
theorem c2_double_release_duplicates (s : Nat) (st : PoolState)
    (hroom : st.pool.length + 1 < st.max_connections) :
    release_connection s true (release_connection s true st) =
      { st with pool := st.pool ++ [s, s] } := by
  have h1 : st.pool.length < st.max_connections := by omega
  have hfirst : release_connection s true st = { st with pool := st.pool ++ [s] } := by
    simp [release_connection, h1]
  rw [hfirst]
  simp [release_connection, List.append_assoc, hroom]

/-- Witness for the amended C2: one checked-out session, capacity 3. -/
theorem c2_double_release_duplicates_witness :
    release_connection 0 true (release_connection 0 true (mk_state [] 1 3 30 1)) =
      mk_state [0, 0] 1 3 30 1 :=
  c2_double_release_duplicates 0 (mk_state [] 1 3 30 1) (by decide)

/-- C6 counterexample: the idle collection is a FIFO queue, so the next
`get_connection` after releasing session 1 returns the *oldest* idle
session, not necessarily the one just released. Acquire sessions 0 and 1,
release 0, then release 1 (probe passes): the next acquire returns
session 0, not session 1. -/
theorem c6_counterexample :
    (get_connection true (release_connection 1 true
        (run [Op.get true, Op.get true, Op.release 0 true] (init_pool 2 30)))).1
      = GetResult.reused 0 ∧
    GetResult.reused 0 ≠ GetResult.reused 1 := by
  decide

/-- C6 amended: releasing a live session appends it to the *back* of the
idle FIFO queue with `active_connections` unchanged, and a subsequent
`get_connection` returns the *front* of the queue immediately, without
blocking and without any liveness validation (the connect oracle is never
consulted); in particular, when the idle queue was empty at release time,
the next `get_connection` returns exactly the released session and restores
the pre-release state. -/
theorem c6_release_enqueues_back (s : Nat) (c : Bool) (st : PoolState)
    (hroom : st.pool.length < st.max_connections) :
    release_connection s true st = { st with pool := st.pool ++ [s] } ∧
    (st.pool = [] →
      get_connection c (release_connection s true st) = (GetResult.reused s, st)) := by
  refine ⟨by simp [release_connection, hroom], ?_⟩
  intro hempty
  obtain ⟨pool, active, maxc, tmo, nid⟩ := st
  simp only at hempty
  subst hempty
  simp only [List.length_nil] at hroom
  simp [release_connection, get_connection, hroom]

/-- Witness for the amended C6: capacity 2, one checked-out session,
empty idle queue. -/
theorem c6_release_enqueues_back_witness :
    release_connection 0 true (mk_state [] 1 2 30 1) = mk_state [0] 1 2 30 1 ∧
    ((mk_state [] 1 2 30 1).pool = [] →
      get_connection true (release_connection 0 true (mk_state [] 1 2 30 1)) =
        (GetResult.reused 0, mk_state [] 1 2 30 1)) :=
  c6_release_enqueues_back 0 true (mk_state [] 1 2 30 1) (by decide)

/-- The drain loop calls `close` on exactly the sessions of the idle queue,
in queue order. -/
theorem drain_idle_closes_all (close_ok : Nat → Bool) (l : List Nat) (a : Int) :
    (drain_idle close_ok l a).1 = l := by
  induction l generalizing a with
  | nil => rfl
  | cons s rest ih => simp [drain_idle, ih]

/-- When every close succeeds, the drain loop decrements the counter once
per drained session. -/
theorem drain_idle_all_ok (close_ok : Nat → Bool) (l : List Nat) (a : Int)
    (h : ∀ s ∈ l, close_ok s = true) :
    (drain_idle close_ok l a).2 = a - l.length := by
  induction l generalizing a with
  | nil => simp [drain_idle]
  | cons s rest ih =>
    have hs : close_ok s = true := h s (List.mem_cons_self s rest)
    have hrest : ∀ x ∈ rest, close_ok x = true := fun x hx => h x (List.mem_cons_of_mem s hx)
    simp only [drain_idle, hs, if_pos]
    rw [ih (a - 1) hrest]
    simp only [List.length_cons]
    push_cast
    ring

/-- C7: `close_all` calls `close` on every session of the idle queue, empties
the queue, and decrements `active_connections` once per idle session closed,
so the counter afterwards reflects only checked-out sessions; when nothing
was checked out (`active_connections` equalled the idle count), the counter
returns to zero and a subsequent `get_connection` succeeds by opening a
brand-new session — `close_all` does not permanently disable the pool. -/
theorem c7_close_all_drains_and_pool_reusable (close_ok : Nat → Bool) (st : PoolState)
    (hmax : 0 < st.max_connections)
    (hok : ∀ s ∈ st.pool, close_ok s = true) :
    (drain_idle close_ok st.pool st.active_connections).1 = st.pool ∧
    (close_all close_ok st).pool = [] ∧
    (close_all close_ok st).active_connections =
      st.active_connections - st.pool.length ∧
    (st.active_connections = (st.pool.length : Int) →
      (get_connection true (close_all close_ok st)).1 = GetResult.created st.next_id) := by
  refine ⟨drain_idle_closes_all close_ok st.pool st.active_connections, rfl,
    drain_idle_all_ok close_ok st.pool st.active_connections hok, ?_⟩
  intro hbal
  have hzero : (close_all close_ok st).active_connections = 0 := by
    rw [show (close_all close_ok st).active_connections
          = (drain_idle close_ok st.pool st.active_connections).2 from rfl,
        drain_idle_all_ok close_ok st.pool st.active_connections hok, hbal]
    ring
  obtain ⟨pool, active, maxc, tmo, nid⟩ := st
  simp only [close_all] at hzero ⊢
  simp [get_connection, hzero, hmax]

/-- Witness for C7: two idle sessions, nothing checked out, capacity 3. -/
theorem c7_close_all_drains_and_pool_reusable_witness :
    (drain_idle (fun _ => true) (mk_state [0, 1] 2 3 30 2).pool
        (mk_state [0, 1] 2 3 30 2).active_connections).1 = (mk_state [0, 1] 2 3 30 2).pool ∧
    (close_all (fun _ => true) (mk_state [0, 1] 2 3 30 2)).pool = [] ∧
    (close_all (fun _ => true) (mk_state [0, 1] 2 3 30 2)).active_connections =
      (mk_state [0, 1] 2 3 30 2).active_connections - (mk_state [0, 1] 2 3 30 2).pool.length ∧
    ((mk_state [0, 1] 2 3 30 2).active_connections =
        ((mk_state [0, 1] 2 3 30 2).pool.length : Int) →
      (get_connection true (close_all (fun _ => true) (mk_state [0, 1] 2 3 30 2))).1 =
        GetResult.created (mk_state [0, 1] 2 3 30 2).next_id) :=
  c7_close_all_drains_and_pool_reusable (fun _ => true) (mk_state [0, 1] 2 3 30 2)
    (by decide) (by intro s hs; rfl)

/-- C8: `close_all` is idempotent — a second call finds the idle queue empty,
drains nothing, and leaves the whole pool state unchanged, so two
consecutive calls have the same effect on the state as one. -/
theorem c8_close_all_idempotent (close_ok : Nat → Bool) (st : PoolState) :
    close_all close_ok (close_all close_ok st) = close_all close_ok st := by
  rfl

/-- C9: `execute_query` acquires a session, runs the query, and always sends
the session back through `release_connection` — the post-state is exactly
the release of the acquired session from the post-acquisition state — both
when the query succeeds, in which case the ordered list of per-row
column-name-to-value mappings is returned, and when the query raises, in
which case the error reaches the caller after the release. -/
theorem c9_execute_query_always_releases (connect_ok : Bool) (outcome : QueryOutcome)
    (probe_ok : Bool) (st : PoolState) (s : Nat)
    (hacq : (get_connection connect_ok st).1 = GetResult.reused s ∨
            (get_connection connect_ok st).1 = GetResult.created s) :
    (execute_query connect_ok outcome probe_ok st).2 =
      release_connection s probe_ok (get_connection connect_ok st).2 ∧
    (∀ columns rows ds, outcome = QueryOutcome.ok columns rows →
      result_dicts columns rows = some ds →
      (execute_query connect_ok outcome probe_ok st).1 = QueryResult.rows ds) ∧
    (outcome = QueryOutcome.fail →
      (execute_query connect_ok outcome probe_ok st).1 = QueryResult.query_error) := by
  rcases hg : get_connection connect_ok st with ⟨r, st2⟩
  rw [hg] at hacq
  simp only at hacq
  rcases hacq with hr | hr <;>
    subst hr <;>
    cases outcome with
    | fail => simp [execute_query, hg]
    | ok columns rows =>
      rcases hd : result_dicts columns rows with _ | ds <;>
        simp_all [execute_query, hg]

/-- Witness for C9: a successful one-column query on a fresh pool of
capacity 2. -/
theorem c9_execute_query_always_releases_witness :
    (execute_query true (QueryOutcome.ok ["a"] [[5]]) true (init_pool 2 30)).2 =
      release_connection 0 true (get_connection true (init_pool 2 30)).2 ∧
    (∀ columns rows ds, QueryOutcome.ok ["a"] [[5]] = QueryOutcome.ok columns rows →
      result_dicts columns rows = some ds →
      (execute_query true (QueryOutcome.ok ["a"] [[5]]) true (init_pool 2 30)).1 =
        QueryResult.rows ds) ∧
    (QueryOutcome.ok ["a"] [[5]] = QueryOutcome.fail →
      (execute_query true (QueryOutcome.ok ["a"] [[5]]) true (init_pool 2 30)).1 =
        QueryResult.query_error) :=
  c9_execute_query_always_releases true (QueryOutcome.ok ["a"] [[5]]) true
    (init_pool 2 30) 0 (Or.inr rfl)

/-- C10: when the liveness probe passes but the idle queue is already full
(`put` raises `Full`), `release_connection` does not enqueue the session:
the `except` branch closes it and decrements `active_connections`, the idle
queue is unchanged, and no error reaches the caller (the function is total
into `PoolState`). -/
theorem c10_release_into_full_queue_discards (s : Nat) (st : PoolState)
    (hfull : st.pool.length = st.max_connections) :
    release_connection s true st =
      { st with active_connections := st.active_connections - 1 } := by
  simp [release_connection, hfull]

/-- Witness for C10: a full idle queue of capacity 2. -/
theorem c10_release_into_full_queue_discards_witness :
    release_connection 2 true (mk_state [0, 1] 2 2 30 3) = mk_state [0, 1] 1 2 30 3 :=
  c10_release_into_full_queue_discards 2 (mk_state [0, 1] 2 2 30 3) rfl

end DatabricksClientPool
